import Mathlib

/-!
Verification of the framework-detection and project-model synthesis engine
of a web-to-iOS migration tool, shallowly embedded in Lean 4.

The embedding models the TypeScript sources:
  * `src/utils/file.ts`            — file access facade
  * `src/detectors/nextjs-detector.ts` — Next.js detector
  * the Vite detector                — `detectViteProject` and helpers
  * the migration-spec generator     — `generateMigrationSpec` and helpers
  * `dist/tools/detect-framework.js` — the detect operation

The filesystem is modelled as an explicit value: a list of files (path,
size, content), a list of existing directories, and a JSON-parse oracle
(`JSON.parse` is a platform primitive, outside the repository; `parse c =
none` models a parse failure).  JavaScript truthiness on optional strings
(`undefined` and `""` are falsy) is modelled explicitly by `truthyStr`.
`path.join` is modelled on already-normalized relative segments as
slash-concatenation.  All functions are total and executable.
-/

set_option maxRecDepth 100000

/-! ## Character-list utilities (substring and pattern matching) -/

/-- `isPrefixChars needle hay` is true when `needle` is a prefix of `hay`. -/
def isPrefixChars : List Char → List Char → Bool
  | [], _ => true
  | _ :: _, [] => false
  | a :: as, b :: bs => a == b && isPrefixChars as bs

/-- `containsChars needle hay` is true when `needle` occurs contiguously in `hay`. -/
def containsChars (needle : List Char) : List Char → Bool
  | [] => isPrefixChars needle []
  | c :: rest => isPrefixChars needle (c :: rest) || containsChars needle rest

/-- `containsStr s pat` is true when `pat` occurs as a substring of `s`. -/
def containsStr (s pat : String) : Bool :=
  containsChars pat.data s.data

/-- Drop a literal prefix from a character list, failing when it does not match. -/
def dropLit : List Char → List Char → Option (List Char)
  | [], cs => some cs
  | _ :: _, [] => none
  | l :: ls, c :: cs => if c == l then dropLit ls cs else none

/-- The JavaScript regular-expression class `\s` (whitespace). -/
def isJsSpace (c : Char) : Bool :=
  c == ' ' || c == '\t' || c == '\n' || c == '\r' ||
  c == '\x0b' || c == '\x0c' || c.val == 0x00A0 || c.val == 0x1680 ||
  (0x2000 ≤ c.val && c.val ≤ 0x200A) ||
  c.val == 0x2028 || c.val == 0x2029 || c.val == 0x202F || c.val == 0x205F ||
  c.val == 0x3000 || c.val == 0xFEFF

/-- Skip a maximal run of JavaScript whitespace (the deterministic reading of
`\s*` when the next pattern atom is not itself whitespace). -/
def skipJsSpaces : List Char → List Char
  | [] => []
  | c :: cs => if isJsSpace c then skipJsSpaces cs else c :: cs

/-- A single or double quote, the character class of the two config regexes. -/
def isQuote (c : Char) : Bool :=
  c == '"' || c.val == 39

/-- Does the regex `output\s*:\s*['"]export['"]` match starting exactly here?
(From `detectStaticExport` in `nextjs-detector.ts`.) -/
def matchExportAt (cs : List Char) : Bool :=
  match dropLit "output".data cs with
  | none => false
  | some cs1 =>
    match skipJsSpaces cs1 with
    | ':' :: cs2 =>
      match skipJsSpaces cs2 with
      | q1 :: cs3 =>
        if isQuote q1 then
          match dropLit "export".data cs3 with
          | some (q2 :: _) => isQuote q2
          | _ => false
        else false
      | [] => false
    | _ => false

/-- Does `/output\s*:\s*['"]export['"]/.test content` hold — i.e., does the
pattern match at some position? -/
def hasExportPattern : List Char → Bool
  | [] => false
  | c :: rest => matchExportAt (c :: rest) || hasExportPattern rest

/-- Match the regex `outDir\s*:\s*['"]([^'"]+)['"]` starting exactly here and
return the capture group (the maximal nonempty run of non-quote characters).
(From `detectBuildOutputDir` in the Vite detector.) -/
def matchOutDirAt (cs : List Char) : Option String :=
  match dropLit "outDir".data cs with
  | none => none
  | some cs1 =>
    match skipJsSpaces cs1 with
    | ':' :: cs2 =>
      match skipJsSpaces cs2 with
      | q1 :: cs3 =>
        if isQuote q1 then
          let capture := cs3.takeWhile (fun c => !(isQuote c))
          match cs3.dropWhile (fun c => !(isQuote c)) with
          | _ :: _ => if capture.isEmpty then none else some (String.mk capture)
          | [] => none
        else none
      | [] => none
    | _ => none

/-- Leftmost match of the `outDir` regex: the capture group of the first
position where the whole pattern matches (`content.match(...)` then `[1]`). -/
def findOutDir : List Char → Option String
  | [] => none
  | c :: rest =>
    match matchOutDirAt (c :: rest) with
    | some s => some s
    | none => findOutDir rest

/-- The characters after the last slash of a path: the `name` of a
`withFileTypes` directory entry (its basename). -/
def basenameChars (cs : List Char) : List Char :=
  (cs.reverse.takeWhile (fun c => !(c == '/'))).reverse

/-- Basename of a path string. -/
def basenameStr (q : String) : String :=
  String.mk (basenameChars q.data)

/-- The characters after the last dot (`split('.').pop()`); the whole string
when there is no dot. -/
def extAfterDot (s : String) : String :=
  String.mk ((s.data.reverse.takeWhile (fun c => !(c == '.'))).reverse)

/-- Uppercase, ASCII-wise (`String.prototype.toUpperCase` on the ASCII
framework tags it is applied to). -/
def strToUpper (s : String) : String :=
  String.mk (s.data.map Char.toUpper)

/-! ## Project model (`src/types/index.d.ts`) -/

/-- Next.js router conventions (`'app' | 'pages' | 'unknown'`). -/
inductive RouterType where
  | app
  | pages
  | unknown
deriving DecidableEq

/-- UI libraries recognized by the Vite detector
(`'react' | 'vue' | 'svelte' | 'angular' | 'unknown'`). -/
inductive UILibrary where
  | react
  | vue
  | svelte
  | angular
  | unknown
deriving DecidableEq

/-- `NextJsProjectInfo` (the `framework : 'nextjs'` tag is carried by the
`AnyProjectInfo` constructor). -/
structure NextJsProjectInfo where
  version : String
  routerType : RouterType
  hasApiRoutes : Bool
  isStaticExport : Bool
  buildCommand : String
  buildOutputDir : String
deriving DecidableEq

/-- `ViteProjectInfo` (the `framework : 'vite'` tag is carried by the
`AnyProjectInfo` constructor). -/
structure ViteProjectInfo where
  version : String
  uiLibrary : UILibrary
  viteConfigPath : Option String
  buildCommand : String
  buildOutputDir : String
  hasReactRouter : Bool
  hasVueRouter : Bool
deriving DecidableEq

/-- `CRAProjectInfo` (the `framework : 'cra'` tag is carried by the
`AnyProjectInfo` constructor). -/
structure CRAProjectInfo where
  version : String
  buildCommand : String
  buildOutputDir : String
  hasReactRouter : Bool
deriving DecidableEq

/-- `AnyProjectInfo`, the discriminated union of the project models. -/
inductive AnyProjectInfo where
  | vite : ViteProjectInfo → AnyProjectInfo
  | nextjs : NextJsProjectInfo → AnyProjectInfo
  | cra : CRAProjectInfo → AnyProjectInfo
deriving DecidableEq

/-- The `framework` tag string of a model. -/
def frameworkTag : AnyProjectInfo → String
  | .vite _ => "vite"
  | .nextjs _ => "nextjs"
  | .cra _ => "cra"

/-- The common `version` field. -/
def infoVersion : AnyProjectInfo → String
  | .vite i => i.version
  | .nextjs i => i.version
  | .cra i => i.version

/-- The common `buildCommand` field. -/
def infoBuildCommand : AnyProjectInfo → String
  | .vite i => i.buildCommand
  | .nextjs i => i.buildCommand
  | .cra i => i.buildCommand

/-- The common `buildOutputDir` field. -/
def infoBuildOutputDir : AnyProjectInfo → String
  | .vite i => i.buildOutputDir
  | .nextjs i => i.buildOutputDir
  | .cra i => i.buildOutputDir

/-- The string form of a `UILibrary` value (its TypeScript literal). -/
def uiLibraryTag : UILibrary → String
  | .react => "react"
  | .vue => "vue"
  | .svelte => "svelte"
  | .angular => "angular"
  | .unknown => "unknown"

/-- `GenerateSpecOptions` from `src/types/index.d.ts`. -/
structure GenerateSpecOptions where
  projectPath : String
  appName : String
  bundleId : String
  primaryColor : Option String
deriving DecidableEq

/-! ## Manifest and filesystem model -/

/-- The parsed shape of a `package.json` manifest as the detectors consume it:
three optional string-to-string maps.  A field is `none` when the key is
absent from the JSON object (optional chaining then yields `undefined`). -/
structure PackageJson where
  dependencies : Option (List (String × String))
  devDependencies : Option (List (String × String))
  scripts : Option (List (String × String))
deriving DecidableEq

/-- One file on disk: its `stat` size and its text content. -/
structure FileEntry where
  size : Nat
  content : String
deriving DecidableEq

/-- The filesystem a detection pass runs against.  `files` maps paths to file
entries, `dirs` lists the paths that are directories, and `parse` is the
`JSON.parse` oracle (`none` models a parse failure; `JSON.parse` itself is a
platform primitive, not repository code). -/
structure FS where
  files : List (String × FileEntry)
  dirs : List String
  parse : String → Option PackageJson

/-- `path.join` on normalized relative segments. -/
def pjoin (a b : String) : String :=
  a ++ "/" ++ b

/-- JavaScript truthiness on an optional string: `undefined` and `""` are
falsy; a truthy value is returned unchanged. -/
def truthyStr : Option String → Option String
  | none => none
  | some s => if s = "" then none else some s

/-- Boolean truthiness test (`!!x`) on an optional string. -/
def truthyB (x : Option String) : Bool :=
  (truthyStr x).isSome

/-- `obj?.[k]` on an optional string map. -/
def jsGet (m : Option (List (String × String))) (k : String) : Option String :=
  match m with
  | none => none
  | some l => l.lookup k

/-- `pkg.dependencies?.[name] || pkg.devDependencies?.[name]`, combined with
the caller's `if (!v)` guard: the first truthy version, else `none`. -/
def jsOrDep (pkg : PackageJson) (name : String) : Option String :=
  match truthyStr (jsGet pkg.dependencies name) with
  | some v => some v
  | none => truthyStr (jsGet pkg.devDependencies name)

/-- `x || d` for an optional string `x` and default `d`. -/
def jsOrDefault (x : Option String) (d : String) : String :=
  match truthyStr x with
  | some v => v
  | none => d

/-- Lookup in `{...pkg.dependencies, ...pkg.devDependencies}`: a
`devDependencies` entry shadows a `dependencies` entry with the same key. -/
def mergedGet (pkg : PackageJson) (k : String) : Option String :=
  match jsGet pkg.devDependencies k with
  | some v => some v
  | none => jsGet pkg.dependencies k

/-! ## File access facade (`src/utils/file.ts`) -/

/-- `safeReadFile`: `none` when the file is missing (`fs.access`/`fs.readFile`
throw) or its `stat` size exceeds `maxSize`; otherwise the content. -/
def safeReadFile (fs : FS) (filePath : String) (maxSize : Nat := 10 * 1024 * 1024) :
    Option String :=
  match fs.files.lookup filePath with
  | none => none
  | some e => if e.size > maxSize then none else some e.content

/-- `fileExists`: `fs.access` succeeds for files and directories alike. -/
def fileExists (fs : FS) (filePath : String) : Bool :=
  (fs.files.lookup filePath).isSome || fs.dirs.contains filePath

/-- `readJsonFile`: `none` when the read fails, the content is falsy (`""`),
or `JSON.parse` throws. -/
def readJsonFile (fs : FS) (filePath : String) : Option PackageJson :=
  match safeReadFile fs filePath with
  | none => none
  | some content => if content = "" then none else fs.parse content

/-- `readPackageJson`: `readJsonFile` on `path.join(projectPath, 'package.json')`. -/
def readPackageJson (fs : FS) (projectPath : String) : Option PackageJson :=
  readJsonFile fs (pjoin projectPath "package.json")

/-- `isDirectory`: `fs.stat(path).isDirectory()`, false when `stat` throws. -/
def isDirectory (fs : FS) (dirPath : String) : Bool :=
  fs.dirs.contains dirPath

/-! ## Next.js detector (`src/detectors/nextjs-detector.ts`) -/

/-- `detectRouterType`: the app-router convention directory (under the project
root or under `src/`) wins over the pages-router one when both exist. -/
def detectRouterType (fs : FS) (projectPath : String) : RouterType :=
  let hasAppDir := isDirectory fs (pjoin projectPath "app") ||
    isDirectory fs (pjoin (pjoin projectPath "src") "app")
  let hasPagesDir := isDirectory fs (pjoin projectPath "pages") ||
    isDirectory fs (pjoin (pjoin projectPath "src") "pages")
  if hasAppDir then RouterType.app
  else if hasPagesDir then RouterType.pages
  else RouterType.unknown

/-- `hasRouteFiles`: recursive `fs.readdir(dirPath, { withFileTypes: true,
recursive: true })` (which throws, hence `false`, when `dirPath` is not a
directory), then `entries.some` of a file entry named `route.ts` or
`route.js`.  A recursive listing of the path-keyed file map is every file
whose path extends `dirPath ++ "/"`; an entry's `name` is its basename. -/
def hasRouteFiles (fs : FS) (dirPath : String) : Bool :=
  if isDirectory fs dirPath then
    fs.files.any (fun pe =>
      isPrefixChars (dirPath ++ "/").data pe.1.data &&
      (basenameStr pe.1 == "route.ts" || basenameStr pe.1 == "route.js"))
  else false

/-- `detectApiRoutes`: pages-router checks the `pages/api` convention
directories; app-router scans for reserved `route.ts`/`route.js` files;
otherwise `false`. -/
def detectApiRoutes (fs : FS) (projectPath : String) (routerType : RouterType) : Bool :=
  match routerType with
  | RouterType.pages =>
    isDirectory fs (pjoin (pjoin projectPath "pages") "api") ||
    isDirectory fs (pjoin (pjoin projectPath "src") (pjoin "pages" "api"))
  | RouterType.app =>
    hasRouteFiles fs (pjoin projectPath "app") ||
    hasRouteFiles fs (pjoin (pjoin projectPath "src") "app")
  | RouterType.unknown => false

/-- The candidate Next.js config filenames, in scan order. -/
def nextConfigNames : List String :=
  ["next.config.js", "next.config.mjs", "next.config.ts"]

/-- The `for (const name of configNames)` loop of `detectStaticExport`:
skip a candidate whose read fails or whose content is falsy, return `true`
at the first content matching the `output: 'export'` pattern. -/
def staticExportLoop (fs : FS) (projectPath : String) : List String → Bool
  | [] => false
  | name :: rest =>
    match safeReadFile fs (pjoin projectPath name) with
    | none => staticExportLoop fs projectPath rest
    | some content =>
      if content = "" then staticExportLoop fs projectPath rest
      else if hasExportPattern content.data then true
      else staticExportLoop fs projectPath rest

/-- `detectStaticExport`. -/
def detectStaticExport (fs : FS) (projectPath : String) : Bool :=
  staticExportLoop fs projectPath nextConfigNames

/-- `detectNextJsProject`: fail fast without a parsed manifest or a truthy
`next` version; otherwise assemble the model. -/
def detectNextJsProject (fs : FS) (projectPath : String) : Option NextJsProjectInfo :=
  match readPackageJson fs projectPath with
  | none => none
  | some pkg =>
    match jsOrDep pkg "next" with
    | none => none
    | some nextVersion =>
      let routerType := detectRouterType fs projectPath
      let hasApiRoutes := detectApiRoutes fs projectPath routerType
      let isStaticExport := detectStaticExport fs projectPath
      let buildCommand := jsOrDefault (jsGet pkg.scripts "build") "next build"
      let buildOutputDir := if isStaticExport then "out" else ".next"
      some { version := nextVersion, routerType := routerType,
             hasApiRoutes := hasApiRoutes, isStaticExport := isStaticExport,
             buildCommand := buildCommand, buildOutputDir := buildOutputDir }

/-! ## Vite detector -/

/-- `detectUILibrary`: truthiness checks on the merged dependency map, in the
fixed order react, vue, svelte, `@angular/core`. -/
def detectUILibrary (pkg : PackageJson) : UILibrary :=
  if truthyB (mergedGet pkg "react") then UILibrary.react
  else if truthyB (mergedGet pkg "vue") then UILibrary.vue
  else if truthyB (mergedGet pkg "svelte") then UILibrary.svelte
  else if truthyB (mergedGet pkg "@angular/core") then UILibrary.angular
  else UILibrary.unknown

/-- The candidate Vite config filenames, in scan order. -/
def viteConfigNames : List String :=
  ["vite.config.ts", "vite.config.js", "vite.config.mjs", "vite.config.cjs"]

/-- `findViteConfig`: the first candidate name whose path exists. -/
def findViteConfig (fs : FS) (projectPath : String) : Option String :=
  viteConfigNames.find? (fun name => fileExists fs (pjoin projectPath name))

/-- `detectBuildOutputDir`: default `dist`, replaced by the capture of the
first `outDir: '<dir>'` match in the config file when one exists, is
readable, and has truthy content. -/
def detectBuildOutputDir (fs : FS) (projectPath : String)
    (viteConfigPath : Option String) : String :=
  match viteConfigPath with
  | none => "dist"
  | some name =>
    match safeReadFile fs (pjoin projectPath name) with
    | none => "dist"
    | some content =>
      if content = "" then "dist"
      else
        match findOutDir content.data with
        | some d => d
        | none => "dist"

/-- `detectViteProject`: fail fast without a parsed manifest or a truthy
`vite` version; otherwise assemble the model. -/
def detectViteProject (fs : FS) (projectPath : String) : Option ViteProjectInfo :=
  match readPackageJson fs projectPath with
  | none => none
  | some pkg =>
    match jsOrDep pkg "vite" with
    | none => none
    | some viteVersion =>
      let uiLibrary := detectUILibrary pkg
      let viteConfigPath := findViteConfig fs projectPath
      let buildOutputDir := detectBuildOutputDir fs projectPath viteConfigPath
      let hasReactRouter :=
        truthyB (jsGet pkg.dependencies "react-router-dom") ||
        truthyB (jsGet pkg.devDependencies "react-router-dom") ||
        truthyB (jsGet pkg.dependencies "react-router") ||
        truthyB (jsGet pkg.devDependencies "react-router")
      let hasVueRouter :=
        truthyB (jsGet pkg.dependencies "vue-router") ||
        truthyB (jsGet pkg.devDependencies "vue-router")
      let buildCommand := jsOrDefault (jsGet pkg.scripts "build") "vite build"
      some { version := viteVersion, uiLibrary := uiLibrary,
             viteConfigPath := viteConfigPath, buildCommand := buildCommand,
             buildOutputDir := buildOutputDir, hasReactRouter := hasReactRouter,
             hasVueRouter := hasVueRouter }

/-! ## Specification Synthesizer (the migration-spec generator) -/

/-- `sections.join('\n\n')`. -/
def joinSections : List String → String
  | [] => ""
  | [s] => s
  | s :: rest => s ++ "\n\n" ++ joinSections rest

/-- `generateHeader`.  The literal `new Date().toISOString()` timestamp is the
one non-deterministic input of the generator and is passed in as `generatedAt`. -/
def generateHeader (appName : String) (generatedAt : String)
    (projectInfo : AnyProjectInfo) : String :=
  "# iOS Migration Specification: " ++ appName ++
  "\n\nGenerated: " ++ generatedAt ++
  "\nFramework: " ++ strToUpper (frameworkTag projectInfo) ++
  "\nVersion: " ++ infoVersion projectInfo ++
  "\n\n---"

/-- `generateProjectOverview`: common bullet list plus variant-specific lines. -/
def generateProjectOverview (projectInfo : AnyProjectInfo) : String :=
  let overview :=
    "## Project Overview\n\n- **Framework**: " ++ frameworkTag projectInfo ++
    "\n- **Version**: " ++ infoVersion projectInfo ++
    "\n- **Build Command**: `" ++ infoBuildCommand projectInfo ++
    "`\n- **Build Output**: `" ++ infoBuildOutputDir projectInfo ++ "`"
  match projectInfo with
  | .vite i =>
    overview ++
    "\n- **UI Library**: " ++ uiLibraryTag i.uiLibrary ++
    "\n- **React Router**: " ++ (if i.hasReactRouter then "Yes" else "No") ++
    "\n- **Vue Router**: " ++ (if i.hasVueRouter then "Yes" else "No")
  | .nextjs i =>
    overview ++
    "\n- **Router Type**: " ++
    (if i.routerType = RouterType.app then "App Router"
     else if i.routerType = RouterType.pages then "Pages Router" else "Unknown") ++
    "\n- **API Routes**: " ++
    (if i.hasApiRoutes then "Yes (⚠️ Requires backend setup)" else "No") ++
    "\n- **Static Export**: " ++
    (if i.isStaticExport then "Yes ✓" else "No (⚠️ Required for Capacitor)")
  | .cra i =>
    overview ++
    "\n- **React Router**: " ++ (if i.hasReactRouter then "Yes" else "No")

/-- `generateCapacitorSetup`. -/
def generateCapacitorSetup (projectInfo : AnyProjectInfo)
    (appName : String) (bundleId : String) : String :=
  "## Capacitor Setup\n\n### 1. Install Capacitor\n\n```bash\nnpm install @capacitor/core @capacitor/cli\nnpm install @capacitor/ios\n```\n\n### 2. Initialize Capacitor\n\n```bash\nnpx cap init \"" ++
  appName ++ "\" \"" ++ bundleId ++ "\" --web-dir=\"" ++
  infoBuildOutputDir projectInfo ++
  "\"\n```\n\n### 3. Add iOS Platform\n\n```bash\nnpx cap add ios\n```"

/-- `generateNextJsSteps`: the framework-specific section for the Next.js
variant, with the static-export critical-warning block, the API-routes
warning block, and the router-type considerations. -/
def generateNextJsSteps (projectInfo : NextJsProjectInfo) : String :=
  "## Next.js Specific Configuration\n\n### 1. Enable Static Export\n\n" ++
  (if projectInfo.isStaticExport then "✓ Static export is already enabled."
   else "⚠️ **CRITICAL**: You must enable static export for Capacitor.") ++
  "\n\n" ++
  (if !projectInfo.isStaticExport then
    "Edit `next.config.js`:\n\n```javascript\n/** @type \x7bimport('next').NextConfig\x7d */\nconst nextConfig = \x7b\n  output: 'export',\n  images: \x7b\n    unoptimized: true, // Required for static export\n  \x7d,\n\x7d;\n\nmodule.exports = nextConfig;\n```\n\n"
   else "") ++
  "### 2. Handle Dynamic Features\n\n" ++
  (if projectInfo.hasApiRoutes then
    "⚠️ **API Routes Detected**: API routes don't work with static export.\nOptions:\n- Move API logic to external backend (Supabase, Firebase, etc.)\n- Use serverless functions (Vercel, Netlify)\n- Create separate backend service"
   else "✓ No API routes detected.") ++
  "\n\n" ++
  (if projectInfo.routerType = RouterType.app then
    "\n### 3. App Router Considerations\n\n- Remove server components that use `fetch` at build time\n- Convert `generateStaticParams` for all dynamic routes\n- Use `getStaticProps` pattern with static data"
   else "") ++
  "\n\n" ++
  (if projectInfo.routerType = RouterType.pages then
    "\n### 3. Pages Router Considerations\n\n- Replace `getServerSideProps` with `getStaticProps`\n- Ensure all dynamic routes have `getStaticPaths`\n- Remove API routes or move to external service"
   else "")

/-- `viteConfigPath?.split('.').pop() || 'ts'`. -/
def viteConfigExt (viteConfigPath : Option String) : String :=
  match viteConfigPath with
  | none => "ts"
  | some s =>
    let e := extAfterDot s
    if e = "" then "ts" else e

/-- `generateViteSteps`. -/
def generateViteSteps (projectInfo : ViteProjectInfo) : String :=
  "## Vite Specific Configuration\n\n### 1. Base Path Configuration\n\nUpdate `vite.config." ++
  viteConfigExt projectInfo.viteConfigPath ++
  "`:\n\n```typescript\nexport default defineConfig(\x7b\n  base: './', // Important for mobile\n  build: \x7b\n    outDir: '" ++
  projectInfo.buildOutputDir ++
  "',\n  \x7d,\n\x7d);\n```\n\n### 2. Environment Variables\n\nVite uses `import.meta.env`:\n- Prefix with `VITE_` for client-side variables\n- Create `.env.production` for production builds\n\n### 3. Router Configuration\n\n" ++
  (if projectInfo.hasReactRouter then
    "**React Router detected**:\n```typescript\nimport \x7b BrowserRouter \x7d from 'react-router-dom';\n\n// Use BrowserRouter (hash routing not needed for Capacitor)\n<BrowserRouter>\n  <App />\n</BrowserRouter>\n```"
   else "") ++
  "\n\n" ++
  (if projectInfo.hasVueRouter then
    "**Vue Router detected**:\n```typescript\nimport \x7b createRouter, createWebHistory \x7d from 'vue-router';\n\nconst router = createRouter(\x7b\n  history: createWebHistory(), // Use web history\n  routes,\n\x7d);\n```"
   else "")

/-- `generateCRASteps`. -/
def generateCRASteps (projectInfo : CRAProjectInfo) : String :=
  "## Create React App Configuration\n\n### 1. Environment Variables\n\n- Use `REACT_APP_` prefix for client-side variables\n- Create `.env.production` for production\n\n### 2. Homepage Configuration\n\nUpdate `package.json`:\n\n```json\n\x7b\n  \"homepage\": \".\"\n\x7d\n```\n\n" ++
  (if projectInfo.hasReactRouter then
    "### 3. Router Configuration\n\n```typescript\nimport \x7b BrowserRouter \x7d from 'react-router-dom';\n\n<BrowserRouter>\n  <App />\n</BrowserRouter>\n```"
   else "")

/-- `generateFrameworkSpecificSteps`: branch on the `framework` tag. -/
def generateFrameworkSpecificSteps : AnyProjectInfo → String
  | .nextjs i => generateNextJsSteps i
  | .vite i => generateViteSteps i
  | .cra i => generateCRASteps i

/-- `generateCommonIssues`: a static catalog, not model-dependent. -/
def generateCommonIssues (_projectInfo : AnyProjectInfo) : String :=
  "## Common Issues & Solutions\n\n### 1. CORS and API Calls\n\n⚠️ Mobile apps don't have CORS restrictions, but:\n- Use absolute URLs for API calls\n- Configure proper authentication headers\n- Test with actual backend endpoints\n\n### 2. Local Storage & Cookies\n\n✓ Works normally in Capacitor\n- Consider using Capacitor Storage for sensitive data\n- `@capacitor/preferences` for persistent storage\n\n### 3. File Access & Camera\n\nAdd Capacitor plugins as needed:\n\n```bash\nnpm install @capacitor/camera @capacitor/filesystem\n```\n\n### 4. Deep Linking\n\nConfigure URL schemes in `capacitor.config.ts`:\n\n```typescript\n\x7b\n  server: \x7b\n    androidScheme: 'https'\n  \x7d\n\x7d\n```\n\n### 5. Safe Area & Notch\n\nAdd viewport meta tag and CSS:\n\n```css\nbody \x7b\n  padding: env(safe-area-inset-top) env(safe-area-inset-right)\n          env(safe-area-inset-bottom) env(safe-area-inset-left);\n\x7d\n```"

/-- `generateBuildSteps`. -/
def generateBuildSteps (projectInfo : AnyProjectInfo) : String :=
  "## Build & Deploy Steps\n\n### 1. Build Web Assets\n\n```bash\n" ++
  infoBuildCommand projectInfo ++
  "\n```\n\n### 2. Sync with Capacitor\n\n```bash\nnpx cap sync ios\n```\n\n### 3. Open in Xcode\n\n```bash\nnpx cap open ios\n```\n\n### 4. Configure in Xcode\n\n- Set development team (Signing & Capabilities)\n- Configure app icons and splash screens\n- Set deployment target (iOS 13.0+)\n- Add required permissions to Info.plist\n\n### 5. Build & Run\n\n- Select device/simulator\n- Click Run (⌘R) or Build (⌘B)"

/-- `generateTestingChecklist`: fixed text. -/
def generateTestingChecklist : String :=
  "## Testing Checklist\n\n- [ ] App launches without crashes\n- [ ] Navigation works correctly\n- [ ] API calls succeed\n- [ ] Authentication flows work\n- [ ] Local storage persists\n- [ ] Images and assets load\n- [ ] Forms submit properly\n- [ ] Responsive layout on different screen sizes\n- [ ] Status bar and safe area handled\n- [ ] Back button behavior correct"

/-- `generateNextSteps`: interpolates the optional `primaryColor` only when it
is truthy. -/
def generateNextSteps (primaryColor : Option String) : String :=
  "## Next Steps\n\n1. **App Icon & Splash Screen**\n   - Use `@capacitor/assets` for generation\n   - Prepare 1024x1024 icon" ++
  (match truthyStr primaryColor with
   | some c => " (use " ++ c ++ " as primary color)"
   | none => "") ++
  "\n\n2. **App Store Preparation**\n   - Create App Store Connect listing\n   - Prepare screenshots (6.5\", 5.5\")\n   - Write app description and keywords\n\n3. **Testing**\n   - Test on physical device\n   - Submit to TestFlight for beta testing\n\n4. **Performance Optimization**\n   - Minimize bundle size\n   - Optimize images\n   - Enable code splitting\n\n---\n\n**Generated by web-to-ios-mcp**"

/-- `generateMigrationSpec`: the ordered concatenation of the eight sections,
joined with blank-line separators. -/
def generateMigrationSpec (projectInfo : AnyProjectInfo)
    (options : GenerateSpecOptions) (generatedAt : String) : String :=
  joinSections
    [ generateHeader options.appName generatedAt projectInfo,
      generateProjectOverview projectInfo,
      generateCapacitorSetup projectInfo options.appName options.bundleId,
      generateFrameworkSpecificSteps projectInfo,
      generateCommonIssues projectInfo,
      generateBuildSteps projectInfo,
      generateTestingChecklist,
      generateNextSteps options.primaryColor ]

/-! ## Detect operation (`dist/tools/detect-framework.js`) -/

/-- `isCapacitorReady`. -/
def isCapacitorReady : AnyProjectInfo → Bool
  | .nextjs i => i.isStaticExport && !i.hasApiRoutes
  | _ => true

/-- `viteProject || nextjsProject`: the Vite detector wins when both match. -/
def detectFrameworkInfo (fs : FS) (projectPath : String) : Option AnyProjectInfo :=
  match detectViteProject fs projectPath with
  | some v => some (AnyProjectInfo.vite v)
  | none =>
    match detectNextJsProject fs projectPath with
    | some n => some (AnyProjectInfo.nextjs n)
    | none => none

/-- The structured no-match message: it names every framework the tool can
recognize and states the preconditions of detection. -/
def noFrameworkMessage (projectPath : String) : String :=
  "❌ No supported framework detected in: " ++ projectPath ++
  "\n\nSupported frameworks:\n- Vite (React, Vue, Svelte, Angular)\n- Next.js\n- Create React App (coming soon)\n\nPlease ensure:\n- package.json exists\n- Framework is installed in dependencies or devDependencies"

/-- The names of the frameworks the system has detectors for. -/
def recognizedFrameworkNames : List String :=
  ["Vite", "Next.js"]

/-- The successful-detection report of the tool. -/
def formatDetectionResult (info : AnyProjectInfo) : String :=
  "✓ Framework detected: **" ++ strToUpper (frameworkTag info) ++ "**\n\n" ++
  "**Version:** " ++ infoVersion info ++ "\n" ++
  "**Build Command:** `" ++ infoBuildCommand info ++ "`\n" ++
  "**Build Output:** `" ++ infoBuildOutputDir info ++ "`\n\n" ++
  (match info with
   | .vite i =>
     "**UI Library:** " ++ uiLibraryTag i.uiLibrary ++ "\n" ++
     "**Vite Config:** " ++ jsOrDefault i.viteConfigPath "Not found" ++ "\n" ++
     (if i.hasReactRouter then "**React Router:** Yes\n" else "") ++
     (if i.hasVueRouter then "**Vue Router:** Yes\n" else "")
   | .nextjs i =>
     "**Router Type:** " ++
     (if i.routerType = RouterType.app then "App Router (app/)"
      else if i.routerType = RouterType.pages then "Pages Router (pages/)"
      else "Unknown") ++ "\n" ++
     "**API Routes:** " ++ (if i.hasApiRoutes then "Yes ⚠️" else "No") ++ "\n" ++
     "**Static Export:** " ++
     (if i.isStaticExport then "Enabled ✓" else "Not configured ⚠️") ++ "\n\n" ++
     (if !i.isStaticExport then
       "> ⚠️ **Important:** Next.js requires static export for Capacitor.\n> Add `output: 'export'` to next.config.js\n\n"
      else "") ++
     (if i.hasApiRoutes then
       "> ⚠️ **Warning:** API routes detected. These won't work with static export.\n> Consider moving to external backend (Supabase, Firebase, etc.)\n\n"
      else "")
   | .cra _ => "") ++
  "\n**Capacitor Compatibility:** " ++
  (if isCapacitorReady info then "✓ Ready" else "⚠️ Needs configuration")

/-- `detectFrameworkTool`: the text of the single content item the tool
returns.  The `catch` branch of the source is unreachable here because every
modelled operation is total. -/
def detectFrameworkTool (fs : FS) (projectPath : String) : String :=
  match detectFrameworkInfo fs projectPath with
  | none => noFrameworkMessage projectPath
  | some info => formatDetectionResult info

/-! ## Named text blocks and concrete inputs used by the statements below -/

/-- The static-export critical-warning block of the Next.js steps section. -/
def criticalWarningBlock : String :=
  "⚠️ **CRITICAL**: You must enable static export for Capacitor."

/-- The API-routes warning block of the Next.js steps section. -/
def apiRoutesWarningBlock : String :=
  "⚠️ **API Routes Detected**: API routes don't work with static export.\nOptions:\n- Move API logic to external backend (Supabase, Firebase, etc.)\n- Use serverless functions (Vercel, Netlify)\n- Create separate backend service"

/-- A filesystem with no files at all. -/
def fsEmptyW : FS :=
  { files := [], dirs := [], parse := fun _ => none }

/-- A filesystem whose manifest exists but does not parse as JSON. -/
def fsUnparseableW : FS :=
  { files := [("proj/package.json", { size := 7, content := "garbage" })],
    dirs := [], parse := fun _ => none }

/-- A manifest declaring neither `vite` nor `next`. -/
def pkgNoDepW : PackageJson :=
  { dependencies := some [("react", "18.0.0")], devDependencies := none,
    scripts := none }

/-- A filesystem whose manifest parses but lacks both signature dependencies. -/
def fsNoDepW : FS :=
  { files := [("proj/package.json", { size := 5, content := "NODEP" })],
    dirs := [], parse := fun s => if s = "NODEP" then some pkgNoDepW else none }

/-- A manifest declaring only `next`. -/
def pkgNextW : PackageJson :=
  { dependencies := some [("next", "14.0.0")], devDependencies := none,
    scripts := none }

/-- A Next.js project with no config file and no router directories. -/
def fsNextW : FS :=
  { files := [("proj/package.json", { size := 7, content := "NEXTPKG" })],
    dirs := [], parse := fun s => if s = "NEXTPKG" then some pkgNextW else none }

/-- The model the Next.js detector produces on `fsNextW`. -/
def infoNextW : NextJsProjectInfo :=
  { version := "14.0.0", routerType := RouterType.unknown, hasApiRoutes := false,
    isStaticExport := false, buildCommand := "next build",
    buildOutputDir := ".next" }

/-- A project directory holding both router convention directories. -/
def fsRouterW : FS :=
  { files := [], dirs := ["proj/app", "proj/pages"], parse := fun _ => none }

/-- A project whose first Next.js config file carries the export marker. -/
def fsStaticW : FS :=
  { files := [("proj/next.config.js", { size := 16, content := "output: 'export'" })],
    dirs := [], parse := fun _ => none }

/-- A filesystem holding one file whose size exceeds any small bound. -/
def fsBigW : FS :=
  { files := [("big.txt", { size := 20 * 1024 * 1024, content := "x" })],
    dirs := [], parse := fun _ => none }

/-- A manifest declaring `vite` and `react`. -/
def pkgViteW : PackageJson :=
  { dependencies := some [("vite", "5.0.0"), ("react", "18.2.0")],
    devDependencies := none, scripts := none }

/-- A Vite+React project whose config file sets a custom output directory. -/
def fsViteW : FS :=
  { files := [("proj/package.json", { size := 7, content := "VITEPKG" }),
              ("proj/vite.config.ts", { size := 15, content := "outDir: 'build'" })],
    dirs := [],
    parse := fun s => if s = "VITEPKG" then some pkgViteW else none }

/-- A Next.js model with `isStaticExport = false` and `hasApiRoutes = true`. -/
def infoC1W : NextJsProjectInfo :=
  { version := "14.0.0", routerType := RouterType.app, hasApiRoutes := true,
    isStaticExport := false, buildCommand := "next build",
    buildOutputDir := "out" }

/-- Benign generation options. -/
def optsW : GenerateSpecOptions :=
  { projectPath := "/proj", appName := "MyApp", bundleId := "com.example.app",
    primaryColor := none }

/-- A Next.js model whose free-text `buildCommand` field happens to equal the
critical-warning text while `isStaticExport` is true.  `buildCommand` is
copied verbatim from the manifest's `scripts.build`, so the detector can
produce this model. -/
def infoC1X : NextJsProjectInfo :=
  { version := "14.0.0", routerType := RouterType.app, hasApiRoutes := false,
    isStaticExport := true, buildCommand := criticalWarningBlock,
    buildOutputDir := "out" }

/-! ## Helper lemmas -/

/-- Appending strings appends their character lists. -/
theorem stringDataAppend (a b : String) : (a ++ b).data = a.data ++ b.data := by
  cases a
  cases b
  rfl

/-- The empty needle occurs in every haystack. -/
theorem containsCharsNilNeedle (b : List Char) : containsChars [] b = true := by
  induction b with
  | nil => rfl
  | cons c cs ih => simp [containsChars, isPrefixChars]

/-- A prefix of `a` is a prefix of `a ++ b`. -/
theorem isPrefixCharsAppend (n : List Char) :
    ∀ a b : List Char, isPrefixChars n a = true → isPrefixChars n (a ++ b) = true := by
  induction n with
  | nil => intro a b _; rfl
  | cons x xs ih =>
    intro a b h
    cases a with
    | nil => simp [isPrefixChars] at h
    | cons y ys =>
      simp only [isPrefixChars, Bool.and_eq_true] at h
      simp only [List.cons_append, isPrefixChars, Bool.and_eq_true]
      exact ⟨h.1, ih ys b h.2⟩

/-- An occurrence in `b` is an occurrence in `a ++ b`. -/
theorem containsCharsAppendLeft (n a b : List Char)
    (h : containsChars n b = true) : containsChars n (a ++ b) = true := by
  induction a with
  | nil => exact h
  | cons x xs ih =>
    simp only [List.cons_append, containsChars, Bool.or_eq_true]
    exact Or.inr ih

/-- An occurrence in `a` is an occurrence in `a ++ b`. -/
theorem containsCharsAppendRight (n : List Char) :
    ∀ a b : List Char, containsChars n a = true → containsChars n (a ++ b) = true := by
  intro a
  induction a with
  | nil =>
    intro b h
    cases n with
    | nil => exact containsCharsNilNeedle b
    | cons x xs => simp [containsChars, isPrefixChars] at h
  | cons y ys ih =>
    intro b h
    simp only [containsChars, Bool.or_eq_true] at h
    simp only [List.cons_append, containsChars, Bool.or_eq_true]
    rcases h with hp | hc
    · exact Or.inl (isPrefixCharsAppend n (y :: ys) b hp)
    · exact Or.inr (ih b hc)

/-- An occurrence in the right part of a concatenation is an occurrence in it. -/
theorem containsStrAppendLeft (a b pat : String)
    (h : containsStr b pat = true) : containsStr (a ++ b) pat = true := by
  unfold containsStr at h ⊢
  rw [stringDataAppend]
  exact containsCharsAppendLeft _ _ _ h

/-- An occurrence in the left part of a concatenation is an occurrence in it. -/
theorem containsStrAppendRight (a b pat : String)
    (h : containsStr a pat = true) : containsStr (a ++ b) pat = true := by
  unfold containsStr at h ⊢
  rw [stringDataAppend]
  exact containsCharsAppendRight _ _ _ h

/-- A pattern occurring in the framework-specific section occurs in the whole
migration document. -/
theorem containsDocOfContainsSteps (info : NextJsProjectInfo)
    (options : GenerateSpecOptions) (generatedAt : String) (pat : String)
    (h : containsStr (generateNextJsSteps info) pat = true) :
    containsStr (generateMigrationSpec (AnyProjectInfo.nextjs info) options generatedAt)
      pat = true := by
  simp only [generateMigrationSpec, joinSections, generateFrameworkSpecificSteps]
  apply containsStrAppendLeft
  apply containsStrAppendLeft
  apply containsStrAppendLeft
  apply containsStrAppendRight
  apply containsStrAppendRight
  exact h

/-- A missing manifest file makes `readPackageJson` absent. -/
theorem readPackageJsonNoneOfMissing (fs : FS) (p : String)
    (h : fs.files.lookup (pjoin p "package.json") = none) :
    readPackageJson fs p = none := by
  simp [readPackageJson, readJsonFile, safeReadFile, h]

/-- An unparseable manifest file makes `readPackageJson` absent. -/
theorem readPackageJsonNoneOfUnparseable (fs : FS) (p : String) (e : FileEntry)
    (he : fs.files.lookup (pjoin p "package.json") = some e)
    (hp : fs.parse e.content = none) :
    readPackageJson fs p = none := by
  simp only [readPackageJson, readJsonFile, safeReadFile, he]
  by_cases hs : e.size > 10 * 1024 * 1024
  · simp [hs]
  · by_cases hc : e.content = "" <;> simp [hs, hc, hp]

/-- The static-export scan loop succeeds exactly when some candidate file is
readable with content matching the export pattern. -/
theorem staticExportLoopIff (fs : FS) (p : String) (names : List String) :
    staticExportLoop fs p names = true ↔
      ∃ n, n ∈ names ∧ ∃ c, safeReadFile fs (pjoin p n) = some c ∧
        hasExportPattern c.data = true := by
  induction names with
  | nil => simp [staticExportLoop]
  | cons name rest ih =>
    simp only [staticExportLoop]
    split
    next hr =>
      rw [ih]
      constructor
      · rintro ⟨n, hn, hrest⟩
        exact ⟨n, List.mem_cons_of_mem _ hn, hrest⟩
      · rintro ⟨n, hn, c, hc, hpat⟩
        rcases List.mem_cons.mp hn with rfl | hn'
        · rw [hr] at hc; cases hc
        · exact ⟨n, hn', c, hc, hpat⟩
    next content hr =>
      by_cases hempty : content = ""
      · subst hempty
        rw [if_pos rfl, ih]
        constructor
        · rintro ⟨n, hn, hrest⟩
          exact ⟨n, List.mem_cons_of_mem _ hn, hrest⟩
        · rintro ⟨n, hn, c, hc, hpat⟩
          rcases List.mem_cons.mp hn with rfl | hn'
          · rw [hr] at hc
            injection hc with hceq
            subst hceq
            cases hpat
          · exact ⟨n, hn', c, hc, hpat⟩
      · rw [if_neg hempty]
        cases hpat : hasExportPattern content.data with
        | true =>
          rw [if_pos rfl]
          constructor
          · intro _
            exact ⟨name, List.mem_cons_self _ _, content, hr, hpat⟩
          · intro _; rfl
        | false =>
          rw [if_neg (by simp), ih]
          constructor
          · rintro ⟨n, hn, hrest⟩
            exact ⟨n, List.mem_cons_of_mem _ hn, hrest⟩
          · rintro ⟨n, hn, c, hc, hpat'⟩
            rcases List.mem_cons.mp hn with rfl | hn'
            · rw [hr] at hc
              injection hc with hceq
              subst hceq
              rw [hpat] at hpat'
              cases hpat'
            · exact ⟨n, hn', c, hc, hpat'⟩

/-! ## Claims -/

/-- Claim C1 (amended): for every Next.js project model, the framework-specific
section of the migration document contains the static-export critical-warning
block exactly when `isStaticExport` is false, and the API-routes warning block
exactly when `hasApiRoutes` is true; the two are computed independently, so
all four combinations of the two booleans produce exactly the corresponding
warnings.  Moreover the full migration document contains each block whenever
the corresponding flag demands it.  (Containment in the full document is only
an implication, not an equivalence: free-text fields interpolated into other
sections can also contain the block, see the counterexample.) -/
theorem claim_C1 (info : NextJsProjectInfo) (options : GenerateSpecOptions)
    (generatedAt : String) :
    (containsStr (generateNextJsSteps info) criticalWarningBlock = !info.isStaticExport)
    ∧ (containsStr (generateNextJsSteps info) apiRoutesWarningBlock = info.hasApiRoutes)
    ∧ (info.isStaticExport = false →
        containsStr (generateMigrationSpec (AnyProjectInfo.nextjs info) options generatedAt)
          criticalWarningBlock = true)
    ∧ (info.hasApiRoutes = true →
        containsStr (generateMigrationSpec (AnyProjectInfo.nextjs info) options generatedAt)
          apiRoutesWarningBlock = true) := by
  obtain ⟨v, rt, har, ise, bc, bod⟩ := info
  have h1 : containsStr (generateNextJsSteps ⟨v, rt, har, ise, bc, bod⟩)
      criticalWarningBlock = !ise := by
    cases rt <;> cases har <;> cases ise <;> rfl
  have h2 : containsStr (generateNextJsSteps ⟨v, rt, har, ise, bc, bod⟩)
      apiRoutesWarningBlock = har := by
    cases rt <;> cases har <;> cases ise <;> rfl
  refine ⟨h1, h2, ?_, ?_⟩
  · intro hise
    have hise' : ise = false := hise
    apply containsDocOfContainsSteps
    rw [h1, hise']
    rfl
  · intro har'
    have har'' : har = true := har'
    apply containsDocOfContainsSteps
    rw [h2, har'']

/-- Claim C1 witness: on a concrete model with `isStaticExport = false` and
`hasApiRoutes = true`, the full document contains both warning blocks. -/
theorem claim_C1_witness :
    infoC1W.isStaticExport = false ∧ infoC1W.hasApiRoutes = true
    ∧ containsStr (generateMigrationSpec (AnyProjectInfo.nextjs infoC1W) optsW
        "2025-01-01T00:00:00.000Z") criticalWarningBlock = true
    ∧ containsStr (generateMigrationSpec (AnyProjectInfo.nextjs infoC1W) optsW
        "2025-01-01T00:00:00.000Z") apiRoutesWarningBlock = true :=
  ⟨rfl, rfl,
   (claim_C1 infoC1W optsW "2025-01-01T00:00:00.000Z").2.2.1 rfl,
   (claim_C1 infoC1W optsW "2025-01-01T00:00:00.000Z").2.2.2 rfl⟩

/-- Claim C1 counterexample: a Next.js model with `isStaticExport = true` whose
`buildCommand` (copied verbatim from the manifest's `scripts.build`) equals
the critical-warning text makes the migration document contain the
static-export critical-warning block even though `isStaticExport` is true,
refuting the claimed equivalence at the level of the whole document. -/
theorem claim_C1_counterexample :
    infoC1X.isStaticExport = true
    ∧ containsStr (generateMigrationSpec (AnyProjectInfo.nextjs infoC1X) optsW
        "2025-01-01T00:00:00.000Z") criticalWarningBlock = true :=
  ⟨rfl, by decide⟩

/-- Claim C2: each detector returns absent when the manifest is missing, when
it does not parse, or when the framework's signature dependency (`vite`
respectively `next`) appears in neither dependency set of the parsed
manifest. -/
theorem claim_C2 (fs : FS) (p : String) :
    (fs.files.lookup (pjoin p "package.json") = none →
      detectViteProject fs p = none ∧ detectNextJsProject fs p = none)
    ∧ (∀ e, fs.files.lookup (pjoin p "package.json") = some e →
        fs.parse e.content = none →
        detectViteProject fs p = none ∧ detectNextJsProject fs p = none)
    ∧ (∀ pkg, readPackageJson fs p = some pkg →
        jsGet pkg.dependencies "vite" = none →
        jsGet pkg.devDependencies "vite" = none →
        detectViteProject fs p = none)
    ∧ (∀ pkg, readPackageJson fs p = some pkg →
        jsGet pkg.dependencies "next" = none →
        jsGet pkg.devDependencies "next" = none →
        detectNextJsProject fs p = none) := by
  refine ⟨?_, ?_, ?_, ?_⟩
  · intro h
    have hr := readPackageJsonNoneOfMissing fs p h
    exact ⟨by simp [detectViteProject, hr], by simp [detectNextJsProject, hr]⟩
  · intro e he hp
    have hr := readPackageJsonNoneOfUnparseable fs p e he hp
    exact ⟨by simp [detectViteProject, hr], by simp [detectNextJsProject, hr]⟩
  · intro pkg hpkg hd hdd
    simp [detectViteProject, hpkg, jsOrDep, hd, hdd, truthyStr]
  · intro pkg hpkg hd hdd
    simp [detectNextJsProject, hpkg, jsOrDep, hd, hdd, truthyStr]

/-- Claim C2 witness: concrete runs of the three absent cases for both
detectors. -/
theorem claim_C2_witness :
    (detectViteProject fsEmptyW "proj" = none
      ∧ detectNextJsProject fsEmptyW "proj" = none)
    ∧ (detectViteProject fsUnparseableW "proj" = none
      ∧ detectNextJsProject fsUnparseableW "proj" = none)
    ∧ detectViteProject fsNoDepW "proj" = none
    ∧ detectNextJsProject fsNoDepW "proj" = none :=
  ⟨(claim_C2 fsEmptyW "proj").1 rfl,
   (claim_C2 fsUnparseableW "proj").2.1 ⟨7, "garbage"⟩ rfl rfl,
   (claim_C2 fsNoDepW "proj").2.2.1 pkgNoDepW rfl rfl rfl,
   (claim_C2 fsNoDepW "proj").2.2.2 pkgNoDepW rfl rfl rfl⟩

/-- Claim C3: when an app-router convention directory (`app/` or `src/app/`)
and a pages-router convention directory (`pages/` or `src/pages/`) both
exist, router-type detection returns `app`. -/
theorem claim_C3 (fs : FS) (p : String)
    (happ : isDirectory fs (pjoin p "app") = true ∨
      isDirectory fs (pjoin (pjoin p "src") "app") = true)
    (_hpages : isDirectory fs (pjoin p "pages") = true ∨
      isDirectory fs (pjoin (pjoin p "src") "pages") = true) :
    detectRouterType fs p = RouterType.app := by
  unfold detectRouterType
  rcases happ with h | h <;> simp [h]

/-- Claim C3 witness: a directory holding both `app/` and `pages/` is detected
as app-router. -/
theorem claim_C3_witness : detectRouterType fsRouterW "proj" = RouterType.app :=
  claim_C3 fsRouterW "proj" (Or.inl rfl) (Or.inl rfl)

/-- Claim C4: a project whose manifest declares `next` but which has none of
the three candidate config files yields a model with `isStaticExport = false`
and `buildOutputDir = ".next"`. -/
theorem claim_C4 (fs : FS) (p : String) (info : NextJsProjectInfo)
    (hconf : ∀ n, n ∈ nextConfigNames → fs.files.lookup (pjoin p n) = none)
    (hdet : detectNextJsProject fs p = some info) :
    info.isStaticExport = false ∧ info.buildOutputDir = ".next" := by
  have h1 := hconf "next.config.js" (by simp [nextConfigNames])
  have h2 := hconf "next.config.mjs" (by simp [nextConfigNames])
  have h3 := hconf "next.config.ts" (by simp [nextConfigNames])
  have hstatic : detectStaticExport fs p = false := by
    simp [detectStaticExport, nextConfigNames, staticExportLoop, safeReadFile,
      h1, h2, h3]
  cases hpkg : readPackageJson fs p with
  | none => simp [detectNextJsProject, hpkg] at hdet
  | some pkg =>
    cases hdep : jsOrDep pkg "next" with
    | none => simp [detectNextJsProject, hpkg, hdep] at hdet
    | some v =>
      simp only [detectNextJsProject, hpkg, hdep, Option.some.injEq] at hdet
      subst hdet
      simp [hstatic]

/-- Claim C4 witness: a concrete `next`-only project with no config file. -/
theorem claim_C4_witness :
    infoNextW.isStaticExport = false ∧ infoNextW.buildOutputDir = ".next" :=
  claim_C4 fsNextW "proj" infoNextW (by decide) rfl

/-- Claim C5: static-export detection returns true exactly when at least one
candidate config file exists, is readable within the size bound, and its text
matches the fixed `output: 'export'` pattern (either quote style, optional
whitespace); in particular it never returns true without such a literal
match. -/
theorem claim_C5 (fs : FS) (p : String) :
    detectStaticExport fs p = true ↔
      ∃ n, n ∈ nextConfigNames ∧ ∃ c, safeReadFile fs (pjoin p n) = some c ∧
        hasExportPattern c.data = true :=
  staticExportLoopIff fs p nextConfigNames

/-- Claim C5 witness: a concrete config file with a literal export marker is
detected. -/
theorem claim_C5_witness : detectStaticExport fsStaticW "proj" = true :=
  (claim_C5 fsStaticW "proj").mpr
    ⟨"next.config.js", by simp [nextConfigNames], "output: 'export'", rfl,
     by decide⟩

/-- Claim C6: the file facade never raises — every modelled operation is a
total function into `Option` — and `safeReadFile` is absent when the file is
missing or exceeds the size bound, while `readJsonFile` is absent when the
file is missing, too large, or its content does not parse as JSON. -/
theorem claim_C6 (fs : FS) (filePath : String) (maxSize : Nat) :
    (fs.files.lookup filePath = none → safeReadFile fs filePath maxSize = none)
    ∧ (∀ e, fs.files.lookup filePath = some e → e.size > maxSize →
        safeReadFile fs filePath maxSize = none)
    ∧ (fs.files.lookup filePath = none → readJsonFile fs filePath = none)
    ∧ (∀ e, fs.files.lookup filePath = some e → e.size > 10 * 1024 * 1024 →
        readJsonFile fs filePath = none)
    ∧ (∀ c, safeReadFile fs filePath = some c → fs.parse c = none →
        readJsonFile fs filePath = none) := by
  refine ⟨?_, ?_, ?_, ?_, ?_⟩
  · intro h
    simp [safeReadFile, h]
  · intro e he hs
    simp [safeReadFile, he, hs]
  · intro h
    simp [readJsonFile, safeReadFile, h]
  · intro e he hs
    simp [readJsonFile, safeReadFile, he, hs]
  · intro c hc hp
    by_cases hempty : c = "" <;> simp [readJsonFile, hc, hempty, hp]

/-- Claim C6 witness: a missing file, an oversized file, and an unparseable
file each yield an absent result. -/
theorem claim_C6_witness :
    safeReadFile fsEmptyW "missing.txt" 10 = none
    ∧ safeReadFile fsBigW "big.txt" 10 = none
    ∧ readJsonFile fsUnparseableW "proj/package.json" = none :=
  ⟨(claim_C6 fsEmptyW "missing.txt" 10).1 rfl,
   (claim_C6 fsBigW "big.txt" 10).2.1 ⟨20 * 1024 * 1024, "x"⟩ rfl (by norm_num),
   (claim_C6 fsUnparseableW "proj/package.json" 10).2.2.2.2 "garbage" rfl rfl⟩

/-- Claim C7: when no detector matches, the detect operation returns the
structured no-match message, which names every framework the system can
recognize, and that list of names is non-empty. -/
theorem claim_C7 (fs : FS) (p : String)
    (hv : detectViteProject fs p = none) (hn : detectNextJsProject fs p = none) :
    detectFrameworkTool fs p = noFrameworkMessage p
    ∧ recognizedFrameworkNames ≠ []
    ∧ ∀ name, name ∈ recognizedFrameworkNames →
        containsStr (detectFrameworkTool fs p) name = true := by
  have hmsg : detectFrameworkTool fs p = noFrameworkMessage p := by
    simp [detectFrameworkTool, detectFrameworkInfo, hv, hn]
  refine ⟨hmsg, by simp [recognizedFrameworkNames], ?_⟩
  intro name hname
  rw [hmsg]
  simp only [recognizedFrameworkNames, List.mem_cons, List.not_mem_nil,
    or_false] at hname
  rcases hname with rfl | rfl
  · unfold noFrameworkMessage
    apply containsStrAppendLeft
    decide
  · unfold noFrameworkMessage
    apply containsStrAppendLeft
    decide

/-- Claim C7 witness: on an empty filesystem neither detector matches and the
tool produces the no-match message listing the recognized frameworks. -/
theorem claim_C7_witness :
    detectFrameworkTool fsEmptyW "proj" = noFrameworkMessage "proj"
    ∧ recognizedFrameworkNames ≠ []
    ∧ ∀ name, name ∈ recognizedFrameworkNames →
        containsStr (detectFrameworkTool fsEmptyW "proj") name = true :=
  claim_C7 fsEmptyW "proj" rfl rfl

/-- Claim C8: a manifest with a truthy `vite` version and a truthy `react`
entry in the merged dependency map, together with a first existing Vite
config file whose content carries a literal `outDir: '<dir>'` setting, yields
the Vite model with `uiLibrary = react` and `buildOutputDir` equal to that
custom directory. -/
theorem claim_C8 (fs : FS) (p : String) (pkg : PackageJson)
    (v name c dir : String)
    (hpkg : readPackageJson fs p = some pkg)
    (hvite : jsOrDep pkg "vite" = some v)
    (hreact : truthyB (mergedGet pkg "react") = true)
    (hfind : findViteConfig fs p = some name)
    (hread : safeReadFile fs (pjoin p name) = some c)
    (hout : findOutDir c.data = some dir) :
    ∃ info, detectViteProject fs p = some info ∧
      info.uiLibrary = UILibrary.react ∧ info.buildOutputDir = dir := by
  have hcne : ¬(c = "") := by
    intro hc
    subst hc
    have hz : findOutDir ("" : String).data = none := rfl
    rw [hz] at hout
    cases hout
  have hdir : detectBuildOutputDir fs p (findViteConfig fs p) = dir := by
    rw [hfind]
    simp only [detectBuildOutputDir, hread, if_neg hcne, hout]
  have hui : detectUILibrary pkg = UILibrary.react := by
    simp [detectUILibrary, hreact]
  cases hdet : detectViteProject fs p with
  | none => simp [detectViteProject, hpkg, hvite] at hdet
  | some info =>
    simp only [detectViteProject, hpkg, hvite, Option.some.injEq] at hdet
    refine ⟨info, rfl, ?_, ?_⟩
    · rw [← hdet]
      exact hui
    · rw [← hdet]
      exact hdir

/-- Claim C8 witness: a concrete Vite+React project with `outDir: 'build'`. -/
theorem claim_C8_witness :
    ∃ info, detectViteProject fsViteW "proj" = some info ∧
      info.uiLibrary = UILibrary.react ∧ info.buildOutputDir = "build" :=
  claim_C8 fsViteW "proj" pkgViteW "5.0.0" "vite.config.ts" "outDir: 'build'"
    "build" rfl rfl rfl rfl rfl rfl

/-- Claim C9: with router type `unknown`, API-route detection returns false
unconditionally (it inspects nothing), and hence every detected model with
`routerType = unknown` has `hasApiRoutes = false`. -/
theorem claim_C9 :
    (∀ (fs : FS) (p : String), detectApiRoutes fs p RouterType.unknown = false)
    ∧ (∀ (fs : FS) (p : String) (info : NextJsProjectInfo),
        detectNextJsProject fs p = some info →
        info.routerType = RouterType.unknown → info.hasApiRoutes = false) := by
  refine ⟨fun fs p => rfl, ?_⟩
  intro fs p info hdet hrt
  cases hpkg : readPackageJson fs p with
  | none => simp [detectNextJsProject, hpkg] at hdet
  | some pkg =>
    cases hdep : jsOrDep pkg "next" with
    | none => simp [detectNextJsProject, hpkg, hdep] at hdet
    | some v =>
      simp only [detectNextJsProject, hpkg, hdep, Option.some.injEq] at hdet
      subst hdet
      have hrt' : detectRouterType fs p = RouterType.unknown := hrt
      show detectApiRoutes fs p (detectRouterType fs p) = false
      rw [hrt']
      rfl

/-- Claim C9 witness: a concrete detection with unknown router type has no
API routes. -/
theorem claim_C9_witness :
    detectApiRoutes fsEmptyW "proj" RouterType.unknown = false
    ∧ infoNextW.hasApiRoutes = false :=
  ⟨claim_C9.1 fsEmptyW "proj", claim_C9.2 fsNextW "proj" infoNextW rfl rfl⟩

/-- Claim C10: every model the Next.js detector produces has
`buildOutputDir = "out"` when `isStaticExport` is true and `".next"`
otherwise; no config-file override can influence it. -/
theorem claim_C10 (fs : FS) (p : String) (info : NextJsProjectInfo)
    (hdet : detectNextJsProject fs p = some info) :
    info.buildOutputDir = if info.isStaticExport then "out" else ".next" := by
  cases hpkg : readPackageJson fs p with
  | none => simp [detectNextJsProject, hpkg] at hdet
  | some pkg =>
    cases hdep : jsOrDep pkg "next" with
    | none => simp [detectNextJsProject, hpkg, hdep] at hdet
    | some v =>
      simp only [detectNextJsProject, hpkg, hdep, Option.some.injEq] at hdet
      subst hdet
      rfl

/-- Claim C10 witness: the concrete detected model obeys the invariant. -/
theorem claim_C10_witness :
    infoNextW.buildOutputDir =
      if infoNextW.isStaticExport then "out" else ".next" :=
  claim_C10 fsNextW "proj" infoNextW rfl
